import Mathlib

/-!
Shallow embedding of the agentic tool-call loop of `src/app.py`
(`run_agent`, `tavily_search`, `tavily_available`, `tools`), together with
theorems settling the specification claims about it.

External collaborators (the LLM completion endpoint reached through
`llm_with_tools.invoke`, and the Tavily search backend reached through
`TavilySearchResults(max_results=5).run`) are modelled as function
parameters.  A call that may raise a Python exception is modelled as
`Except String α`, the error carrying `str(e)`.  Logging and the
Streamlit status sink are observationally irrelevant to the returned
answer and are dropped.
-/

/-- A Python runtime value as it flows out of a tool: either a genuine
string, or a non-string object (such as the raw list of results returned
by the Tavily backend) that only becomes text when passed through
`str()`.  `pyStr` models `str()`; the exact Python rendering of a
non-string object is irrelevant to every claim, so a fixed bracketed
rendering stands in for it. -/
inductive PyVal where
  | str (s : String)
  | list (items : List String)
deriving Repr, DecidableEq

/-- Model of Python `str()` on a tool result (src/app.py line 264). -/
def pyStr : PyVal → String
  | .str s => s
  | .list items => "[" ++ String.intercalate ", " items ++ "]"

/-- Whether a `PyVal` already is a string. -/
def PyVal.isStr : PyVal → Bool
  | .str _ => true
  | .list _ => false

/-- One tool call emitted by the model: `tool_call['id']`,
`tool_call['name']`, and `tool_call['args']` (the argument payload,
which for `tavily_search` is the query; src/app.py lines 248-266). -/
structure ToolCall where
  id : String
  name : String
  args : String
deriving Repr, DecidableEq

/-- The response object returned by `llm_with_tools.invoke`: its text
`content` and its (possibly empty) `tool_calls` list
(src/app.py lines 233-248). -/
structure LLMResponse where
  content : String
  tool_calls : List ToolCall
deriving Repr, DecidableEq

/-- A conversation message: `SystemMessage`, `HumanMessage`, the
assistant response appended on line 244, or a `ToolMessage` with its
`content` string and `tool_call_id` (src/app.py lines 216-266). -/
inductive Message where
  | system (content : String)
  | human (content : String)
  | ai (resp : LLMResponse)
  | tool (content : String) (tool_call_id : String)
deriving Repr, DecidableEq

/-- The external Tavily search service behind
`TavilySearchResults.run`: for a query it either raises (modelled by
`Except.error` carrying `str(e)`) or returns the raw, uncapped list of
results.  Modelled from the spec: the `TavilySearchResults` wrapper
itself is third-party code not under src/; per the spec it caps the
result count at the configured `max_results`, modelled below by
`List.take`. -/
structure SearchBackend where
  search : String → Except String (List String)

/-- The error message of the runtime availability fallback in
`tavily_search` (src/app.py line 156). -/
def tavilyUnavailableMsg : String :=
  "Tavily search is not available. Please set the TAVILY_API_KEY environment variable."

/-- Model of `TavilySearchResults(max_results=max_results).run query`
(src/app.py line 160 instantiates it with `max_results=5`): the raw
backend results capped at `max_results`, returned as a non-string
results object. -/
def TavilySearchResults_run (b : SearchBackend) (max_results : Nat) (query : String) :
    Except String PyVal :=
  (b.search query).map (fun rs => PyVal.list (rs.take max_results))

/-- Model of `tavily_available` (src/app.py lines 144-145):
`tavily_api_key is not None and tavily_api_key.strip() != ""`, where
`key` is `os.getenv('TAVILY_API_KEY')`. -/
def tavily_available (key : Option String) : Bool :=
  match key with
  | none => false
  | some k => !(k.trim == "")

/-- Model of the `tavily_search` tool body (src/app.py lines 150-168):
if unavailable, return the fallback error message; otherwise run
`TavilySearchResults(max_results=5)` on the query, returning its results
on success and `"Search error: " ++ str(e)` if it raises. -/
def tavily_search (avail : Bool) (b : SearchBackend) (query : String) : PyVal :=
  if !avail then PyVal.str tavilyUnavailableMsg
  else
    match TavilySearchResults_run b 5 query with
    | .ok results => results
    | .error e => PyVal.str ("Search error: " ++ e)

/-- Model of the tool catalog `tools = [tavily_search] if tavily_available
else []` (src/app.py line 172), by tool name. -/
def tools (avail : Bool) : List String :=
  if avail then ["tavily_search"] else []

/-- The environment of one `run_agent` run: the startup availability
flag, the search backend, and the completion endpoint.  The completion
endpoint is a function of the conversation so far; `Except.error`
models `llm_with_tools.invoke` raising, with `str(e)` as payload. -/
structure AgentEnv where
  avail : Bool
  backend : SearchBackend
  llm : List Message → Except String LLMResponse

/-- The tool-dispatch policy for one tool call (src/app.py lines
253-258): `tavily_search` is invoked by name, any other name yields the
`"Unknown tool: <name>"` text result. -/
def tool_result (env : AgentEnv) (tc : ToolCall) : PyVal :=
  if tc.name = "tavily_search" then tavily_search env.avail env.backend tc.args
  else PyVal.str ("Unknown tool: " ++ tc.name)

/-- The tool message appended for one tool call (src/app.py lines
263-266): content `str(tool_result)`, id the tool call's id. -/
def dispatch (env : AgentEnv) (tc : ToolCall) : Message :=
  Message.tool (pyStr (tool_result env tc)) tc.id

/-- The system prompt built at the top of `run_agent`
(src/app.py lines 210-214). -/
def system_message (avail : Bool) : String :=
  "You are a helpful AI assistant." ++
    (if avail then
      " When asked questions, search for the latest information and provide comprehensive answers based on what you find."
    else
      " Note: You don't have access to real-time search. Provide answers based on your training data.")

/-- The initial conversation (src/app.py lines 216-219). -/
def init_messages (avail : Bool) (user_input : String) : List Message :=
  [Message.system (system_message avail), Message.human user_input]

/-- `max_iterations = 10` (src/app.py line 222). -/
def max_iterations : Nat := 10

/-- The observable outcome of a run, instrumented for the claims:
the returned `answer` string, the number of completion calls made, the
tool calls dispatched in dispatch order, and the final conversation. -/
structure RunResult where
  answer : String
  completions : Nat
  dispatches : List ToolCall
  final_messages : List Message
deriving Repr, DecidableEq

/-- The `while iteration < max_iterations` loop of `run_agent`
(src/app.py lines 225-276), with the remaining iteration budget as
fuel.  Each iteration: invoke the completion endpoint (an exception
returns `"Error during processing: " ++ str(e)` immediately, lines
269-272); if `response.tool_calls` is empty return `response.content`
(lines 237-241); otherwise append the assistant message and one tool
message per tool call in emission order (lines 243-267) and loop.
Fuel exhausted models leaving the while loop: the fixed sentinel of
line 276 is returned. -/
def run_agent_aux (env : AgentEnv) : Nat → List Message → RunResult
  | 0, messages =>
    ⟨"Max iterations reached without completing the agent task", 0, [], messages⟩
  | fuel + 1, messages =>
    match env.llm messages with
    | .error e => ⟨"Error during processing: " ++ e, 1, [], messages⟩
    | .ok response =>
      if response.tool_calls = [] then
        ⟨response.content, 1, [], messages⟩
      else
        let rest := run_agent_aux env fuel
          (messages ++ Message.ai response :: response.tool_calls.map (dispatch env))
        ⟨rest.answer, rest.completions + 1, response.tool_calls ++ rest.dispatches,
          rest.final_messages⟩

/-- Model of `run_agent` (src/app.py lines 206-276). -/
def run_agent (env : AgentEnv) (user_input : String) : RunResult :=
  run_agent_aux env max_iterations (init_messages env.avail user_input)

/-! Concrete fixtures used by the witness theorems. -/

/-- A search backend that always succeeds with seven raw results. -/
def okBackend : SearchBackend :=
  ⟨fun _ => Except.ok ["r1", "r2", "r3", "r4", "r5", "r6", "r7"]⟩

/-- A search backend that always raises. -/
def errBackend : SearchBackend :=
  ⟨fun _ => Except.error "boom"⟩

/-- A completion endpoint that immediately returns a final answer. -/
def llmParis : List Message → Except String LLMResponse :=
  fun _ => Except.ok ⟨"Paris is the capital of France.", []⟩

/-- A completion endpoint that always requests one `tavily_search` call. -/
def llmAlwaysTool : List Message → Except String LLMResponse :=
  fun _ => Except.ok ⟨"", [⟨"call_1", "tavily_search", "news"⟩]⟩

/-- A completion endpoint that always requests a call to an unknown tool. -/
def llmUnknownTool : List Message → Except String LLMResponse :=
  fun _ => Except.ok ⟨"", [⟨"call_9", "calculator", "2+2"⟩]⟩

/-- A completion endpoint that always raises. -/
def llmRaise : List Message → Except String LLMResponse :=
  fun _ => Except.error "network down"

/-- Claim C1: from any conversation state, in any round with budget left, if the
completion call returns a response whose tool-call list is empty, the loop returns
exactly that response's text content, makes no completion call beyond this one,
dispatches no tool, and appends no message. -/
theorem run_agent_empty_tool_calls_returns_content (env : AgentEnv)
    (msgs : List Message) (fuel : Nat) (r : LLMResponse)
    (h : env.llm msgs = Except.ok r) (hr : r.tool_calls = []) :
    run_agent_aux env (fuel + 1) msgs = ⟨r.content, 1, [], msgs⟩ := by
  simp [run_agent_aux, h, hr]

/-- Witness for C1 at a concrete run: the question is answered on round one. -/
theorem run_agent_empty_tool_calls_returns_content_witness :
    run_agent_aux ⟨false, okBackend, llmParis⟩ 10 (init_messages false "capital?") =
      ⟨"Paris is the capital of France.", 1, [], init_messages false "capital?"⟩ :=
  run_agent_empty_tool_calls_returns_content ⟨false, okBackend, llmParis⟩
    (init_messages false "capital?") 9 ⟨"Paris is the capital of France.", []⟩ rfl rfl

/-- Claim C5: from any conversation state, if the completion call raises, the loop
aborts at once: that completion call is the only one made (no retry, no further
round), no tool is dispatched, no message is appended, and the returned answer is
the plain string carrying the exception's description. -/
theorem completion_error_aborts (env : AgentEnv) (msgs : List Message)
    (fuel : Nat) (e : String) (h : env.llm msgs = Except.error e) :
    run_agent_aux env (fuel + 1) msgs =
      ⟨"Error during processing: " ++ e, 1, [], msgs⟩ := by
  simp [run_agent_aux, h]

/-- Witness for C5 at a concrete run with a raising completion endpoint. -/
theorem completion_error_aborts_witness :
    run_agent_aux ⟨true, okBackend, llmRaise⟩ 10 (init_messages true "q") =
      ⟨"Error during processing: network down", 1, [], init_messages true "q"⟩ :=
  completion_error_aborts ⟨true, okBackend, llmRaise⟩ (init_messages true "q") 9
    "network down" rfl

/-- Helper: the loop never makes more completion calls than it has fuel. -/
theorem run_agent_aux_completions_le (env : AgentEnv) :
    ∀ fuel msgs, (run_agent_aux env fuel msgs).completions ≤ fuel := by
  intro fuel
  induction fuel with
  | zero => intro msgs; simp [run_agent_aux]
  | succ n ih =>
    intro msgs
    cases h : env.llm msgs with
    | error e => simp [run_agent_aux, h]
    | ok r =>
      by_cases hr : r.tool_calls = []
      · simp [run_agent_aux, h, hr]
      · have := ih (msgs ++ Message.ai r :: r.tool_calls.map (dispatch env))
        simp [run_agent_aux, h, hr]
        omega

/-- Helper: if the completion endpoint always succeeds with a nonempty tool-call
list, the loop burns its whole fuel and returns the exhaustion sentinel. -/
theorem run_agent_aux_exhaust (env : AgentEnv)
    (h : ∀ msgs, ∃ r, env.llm msgs = Except.ok r ∧ r.tool_calls ≠ []) :
    ∀ fuel msgs, (run_agent_aux env fuel msgs).answer =
        "Max iterations reached without completing the agent task" ∧
      (run_agent_aux env fuel msgs).completions = fuel := by
  intro fuel
  induction fuel with
  | zero => intro msgs; simp [run_agent_aux]
  | succ n ih =>
    intro msgs
    obtain ⟨r, hok, hne⟩ := h msgs
    have h2 := ih (msgs ++ Message.ai r :: r.tool_calls.map (dispatch env))
    simp [run_agent_aux, hok, hne, h2.1, h2.2]

/-- Claim C2: every run makes at most 10 completion calls, and whenever the
completion endpoint never terminates the loop (always succeeds, always with a
nonempty tool-call list), the run makes exactly 10 and returns the fixed
exhaustion sentinel verbatim as an ordinary return value. -/
theorem run_agent_at_most_ten_rounds (env : AgentEnv) (q : String) :
    (run_agent env q).completions ≤ 10 ∧
      ((∀ msgs, ∃ r, env.llm msgs = Except.ok r ∧ r.tool_calls ≠ []) →
        (run_agent env q).answer =
            "Max iterations reached without completing the agent task" ∧
          (run_agent env q).completions = 10) := by
  refine ⟨run_agent_aux_completions_le env 10 _, fun h => ?_⟩
  exact run_agent_aux_exhaust env h 10 _

/-- Witness for C2 at a concrete run whose model always asks for a tool. -/
theorem run_agent_at_most_ten_rounds_witness :
    (run_agent ⟨true, okBackend, llmAlwaysTool⟩ "news?").answer =
        "Max iterations reached without completing the agent task" ∧
      (run_agent ⟨true, okBackend, llmAlwaysTool⟩ "news?").completions = 10 :=
  (run_agent_at_most_ten_rounds ⟨true, okBackend, llmAlwaysTool⟩ "news?").2
    (fun _ => ⟨⟨"", [⟨"call_1", "tavily_search", "news"⟩]⟩, rfl, by simp⟩)

/-- Claim C3: in any round whose completion response carries a nonempty tool-call
list, the loop continues by appending the assistant message followed by exactly
one tool message per tool call, in emission order, and only then makes the next
completion call (the recursive call runs on the extended conversation); the tool
message at each position answers the tool call at the same position, carrying its
id. -/
theorem round_appends_matching_tool_messages (env : AgentEnv) (msgs : List Message)
    (fuel : Nat) (r : LLMResponse) (h : env.llm msgs = Except.ok r)
    (hne : r.tool_calls ≠ []) :
    run_agent_aux env (fuel + 1) msgs =
      ⟨(run_agent_aux env fuel
          (msgs ++ Message.ai r :: r.tool_calls.map (dispatch env))).answer,
        (run_agent_aux env fuel
          (msgs ++ Message.ai r :: r.tool_calls.map (dispatch env))).completions + 1,
        r.tool_calls ++ (run_agent_aux env fuel
          (msgs ++ Message.ai r :: r.tool_calls.map (dispatch env))).dispatches,
        (run_agent_aux env fuel
          (msgs ++ Message.ai r :: r.tool_calls.map (dispatch env))).final_messages⟩ ∧
    (r.tool_calls.map (dispatch env)).length = r.tool_calls.length ∧
    ∀ i, i < r.tool_calls.length →
      ∃ tc, r.tool_calls[i]? = some tc ∧
        (r.tool_calls.map (dispatch env))[i]? =
          some (Message.tool (pyStr (tool_result env tc)) tc.id) := by
  refine ⟨by simp [run_agent_aux, h, hne], by simp, fun i hi => ?_⟩
  refine ⟨r.tool_calls[i], List.getElem?_eq_getElem hi, ?_⟩
  simp [List.getElem?_eq_getElem hi, dispatch]

/-- Witness for C3 at a concrete round with one requested tool call. -/
theorem round_appends_matching_tool_messages_witness :
    ∃ tc, (LLMResponse.mk "" [⟨"call_1", "tavily_search", "news"⟩]).tool_calls[0]? =
        some tc ∧
      ((LLMResponse.mk "" [⟨"call_1", "tavily_search", "news"⟩]).tool_calls.map
          (dispatch ⟨true, okBackend, llmAlwaysTool⟩))[0]? =
        some (Message.tool
          (pyStr (tool_result ⟨true, okBackend, llmAlwaysTool⟩ tc)) tc.id) :=
  (round_appends_matching_tool_messages ⟨true, okBackend, llmAlwaysTool⟩
      (init_messages true "q") 9 ⟨"", [⟨"call_1", "tavily_search", "news"⟩]⟩ rfl
      (by simp)).2.2 0 (by simp)

/-- Claim C4: an error arising during tool execution is converted into a text
tool result and never aborts the loop.  An unknown tool name yields the
"Unknown tool" text; a raising search backend yields the "Search error" text;
in both cases the round still appends all its tool messages and proceeds to the
next completion call on the extended conversation. -/
theorem tool_errors_do_not_abort (env : AgentEnv) (msgs : List Message) (fuel : Nat)
    (r : LLMResponse) (h : env.llm msgs = Except.ok r) (hne : r.tool_calls ≠ []) :
    (∀ tc, tc ∈ r.tool_calls → tc.name ≠ "tavily_search" →
        dispatch env tc = Message.tool ("Unknown tool: " ++ tc.name) tc.id) ∧
    (∀ tc e, tc ∈ r.tool_calls → tc.name = "tavily_search" → env.avail = true →
        env.backend.search tc.args = Except.error e →
        dispatch env tc = Message.tool ("Search error: " ++ e) tc.id) ∧
    (run_agent_aux env (fuel + 1) msgs).answer =
      (run_agent_aux env fuel
        (msgs ++ Message.ai r :: r.tool_calls.map (dispatch env))).answer := by
  refine ⟨fun tc _ hn => ?_, fun tc e _ hn ha hb => ?_, ?_⟩
  · simp [dispatch, tool_result, hn, pyStr]
  · simp [dispatch, tool_result, hn, tavily_search, ha, TavilySearchResults_run, hb,
      Except.map, pyStr]
  · simp [run_agent_aux, h, hne]

/-- Witness for C4: a raising backend becomes a "Search error" tool message. -/
theorem tool_errors_do_not_abort_witness :
    dispatch ⟨true, errBackend, llmAlwaysTool⟩ ⟨"call_1", "tavily_search", "news"⟩ =
      Message.tool ("Search error: " ++ "boom") "call_1" :=
  (tool_errors_do_not_abort ⟨true, errBackend, llmAlwaysTool⟩ (init_messages true "q")
      9 ⟨"", [⟨"call_1", "tavily_search", "news"⟩]⟩ rfl (by simp)).2.1
    ⟨"call_1", "tavily_search", "news"⟩ "boom" (by simp) rfl rfl rfl

/-- Claim C6: a tool call whose name is not "tavily_search" is answered by a tool
message whose content is exactly "Unknown tool: " followed by the requested name,
carrying the call's id; that message is appended in the round, and the loop is
not aborted: this round's completion call is followed by the next one on the
extended conversation. -/
theorem unknown_tool_message (env : AgentEnv) (msgs : List Message) (fuel : Nat)
    (r : LLMResponse) (tc : ToolCall) (h : env.llm msgs = Except.ok r)
    (htc : tc ∈ r.tool_calls) (hn : tc.name ≠ "tavily_search") :
    dispatch env tc = Message.tool ("Unknown tool: " ++ tc.name) tc.id ∧
      Message.tool ("Unknown tool: " ++ tc.name) tc.id ∈
        msgs ++ Message.ai r :: r.tool_calls.map (dispatch env) ∧
      (run_agent_aux env (fuel + 1) msgs).completions =
        (run_agent_aux env fuel
          (msgs ++ Message.ai r :: r.tool_calls.map (dispatch env))).completions + 1 := by
  have hne : r.tool_calls ≠ [] := List.ne_nil_of_mem htc
  have hd : dispatch env tc = Message.tool ("Unknown tool: " ++ tc.name) tc.id := by
    simp [dispatch, tool_result, hn, pyStr]
  refine ⟨hd, ?_, ?_⟩
  · have hm : dispatch env tc ∈ r.tool_calls.map (dispatch env) :=
      List.mem_map_of_mem _ htc
    rw [hd] at hm
    exact List.mem_append_right _ (List.mem_cons_of_mem _ hm)
  · simp [run_agent_aux, h, hne]

/-- Witness for C6 at a concrete unrecognized tool name. -/
theorem unknown_tool_message_witness :
    dispatch ⟨true, okBackend, llmUnknownTool⟩ ⟨"call_9", "calculator", "2+2"⟩ =
      Message.tool ("Unknown tool: " ++ "calculator") "call_9" :=
  (unknown_tool_message ⟨true, okBackend, llmUnknownTool⟩ (init_messages true "q") 9
      ⟨"", [⟨"call_9", "calculator", "2+2"⟩]⟩ ⟨"call_9", "calculator", "2+2"⟩ rfl
      (by decide) (by decide)).1

/-- Helper: with availability off, dispatching never consults the search
backend, so `dispatch` does not depend on it. -/
theorem dispatch_avail_false (b₁ b₂ : SearchBackend)
    (llm₁ llm₂ : List Message → Except String LLMResponse) :
    dispatch ⟨false, b₁, llm₁⟩ = dispatch ⟨false, b₂, llm₂⟩ := by
  funext tc
  simp [dispatch, tool_result, tavily_search]

/-- Helper: with availability off, the whole loop is independent of the
search backend. -/
theorem run_agent_aux_backend_irrelevant (b₁ b₂ : SearchBackend)
    (llm : List Message → Except String LLMResponse) :
    ∀ fuel msgs, run_agent_aux ⟨false, b₁, llm⟩ fuel msgs =
      run_agent_aux ⟨false, b₂, llm⟩ fuel msgs := by
  intro fuel
  induction fuel with
  | zero => intro msgs; rfl
  | succ n ih =>
    intro msgs
    cases h : llm msgs with
    | error e => simp [run_agent_aux, h]
    | ok r =>
      by_cases hr : r.tool_calls = []
      · simp [run_agent_aux, h, hr]
      · simp [run_agent_aux, h, hr, dispatch_avail_false b₁ b₂ llm llm, ih]

/-- Claim C7: when the backing credential is absent or blank at startup, the
tool catalog bound to the completion client is empty, and no call to the search
backend ever occurs during a run: the entire run result is independent of the
backend. -/
theorem absent_credential_empty_catalog_no_search (key : Option String)
    (h : tavily_available key = false) (b₁ b₂ : SearchBackend)
    (llm : List Message → Except String LLMResponse) (q : String) :
    tools (tavily_available key) = [] ∧
      run_agent ⟨tavily_available key, b₁, llm⟩ q =
        run_agent ⟨tavily_available key, b₂, llm⟩ q := by
  rw [h]
  exact ⟨rfl, run_agent_aux_backend_irrelevant b₁ b₂ llm 10 (init_messages false q)⟩

/-- Witness for C7 with the credential unset: two runs differing only in the
backend coincide. -/
theorem absent_credential_empty_catalog_no_search_witness :
    tools (tavily_available none) = [] ∧
      run_agent ⟨tavily_available none, okBackend, llmParis⟩ "q" =
        run_agent ⟨tavily_available none, errBackend, llmParis⟩ "q" :=
  absent_credential_empty_catalog_no_search none rfl okBackend errBackend llmParis "q"

/-- Counterexample to C8 as stated: at a concrete query against a succeeding
backend, the successful `tavily_search` result is the raw results object of the
backend, not a text (string) value — the source's success path is
`return results` (src/app.py line 164). -/
theorem tavily_search_success_not_text :
    tavily_search true okBackend "q" = PyVal.list ["r1", "r2", "r3", "r4", "r5"] ∧
      (tavily_search true okBackend "q").isStr = false :=
  ⟨rfl, rfl⟩

/-- Claim C8, amended: the search tool is total over all backend outcomes:
unavailable yields the fixed unavailability text, a raising backend yields text
carrying the "Search error: " marker (no exception escapes), and a succeeding
backend yields the raw results object — not a text summary — capped at 5
results; it becomes text only through `str()` at the dispatch site. -/
theorem tavily_search_total_behavior (avail : Bool) (b : SearchBackend)
    (query : String) :
    (avail = false → tavily_search avail b query = PyVal.str tavilyUnavailableMsg) ∧
      (∀ e, avail = true → b.search query = Except.error e →
        tavily_search avail b query = PyVal.str ("Search error: " ++ e)) ∧
      (∀ rs, avail = true → b.search query = Except.ok rs →
        tavily_search avail b query = PyVal.list (rs.take 5) ∧
          (tavily_search avail b query).isStr = false ∧
          (rs.take 5).length ≤ 5) := by
  refine ⟨fun ha => ?_, fun e ha hb => ?_, fun rs ha hb => ?_⟩
  · simp [tavily_search, ha]
  · simp [tavily_search, ha, TavilySearchResults_run, hb, Except.map]
  · have h1 : tavily_search avail b query = PyVal.list (rs.take 5) := by
      simp [tavily_search, ha, TavilySearchResults_run, hb, Except.map]
    exact ⟨h1, by rw [h1]; rfl, by simp [List.length_take]⟩

/-- Witness for the amended C8: a raising backend is caught, a succeeding
backend with seven raw results yields the non-string results object capped at
five. -/
theorem tavily_search_total_behavior_witness :
    tavily_search true errBackend "q" = PyVal.str ("Search error: " ++ "boom") ∧
      tavily_search true okBackend "q" =
          PyVal.list ((["r1", "r2", "r3", "r4", "r5", "r6", "r7"] : List String).take 5) ∧
        (tavily_search true okBackend "q").isStr = false ∧
        ((["r1", "r2", "r3", "r4", "r5", "r6", "r7"] : List String).take 5).length ≤ 5 :=
  ⟨(tavily_search_total_behavior true errBackend "q").2.1 "boom" rfl rfl,
    (tavily_search_total_behavior true okBackend "q").2.2
      ["r1", "r2", "r3", "r4", "r5", "r6", "r7"] rfl rfl⟩

/-- Claim C9: if the credential is absent at startup (so the catalog offered to
the completion client is empty) and the completion client only requests tools
from the offered catalog, then no tool is ever dispatched in a run and the
conversation never grows, so the runtime availability fallback inside
`tavily_search` — which executes only under `dispatch` — is unreachable. -/
theorem unavailable_fallback_unreachable (key : Option String)
    (h : tavily_available key = false) (env : AgentEnv)
    (henv : env.avail = tavily_available key)
    (hcat : ∀ msgs r, env.llm msgs = Except.ok r →
      ∀ tc ∈ r.tool_calls, tc.name ∈ tools env.avail) (q : String) :
    (run_agent env q).dispatches = [] ∧
      (run_agent env q).final_messages = init_messages env.avail q := by
  have ha : env.avail = false := henv.trans h
  have hempty : ∀ msgs r, env.llm msgs = Except.ok r → r.tool_calls = [] := by
    intro msgs r hok
    rcases hr : r.tool_calls with _ | ⟨a, l⟩
    · rfl
    · exact absurd (hcat msgs r hok a (by rw [hr]; exact List.mem_cons_self a l))
        (by simp [ha, tools])
  have hten : run_agent env q = run_agent_aux env (9 + 1) (init_messages env.avail q) :=
    rfl
  rw [hten]
  cases hok : env.llm (init_messages env.avail q) with
  | error e => simp [run_agent_aux, hok]
  | ok r => simp [run_agent_aux, hok, hempty _ r hok]

/-- Witness for C9 with credential unset and a catalog-respecting model. -/
theorem unavailable_fallback_unreachable_witness :
    (run_agent ⟨tavily_available none, okBackend, llmParis⟩ "q").dispatches = [] ∧
      (run_agent ⟨tavily_available none, okBackend, llmParis⟩ "q").final_messages =
        init_messages (tavily_available none) "q" :=
  unavailable_fallback_unreachable none rfl
    ⟨tavily_available none, okBackend, llmParis⟩ rfl
    (by
      intro msgs r hok tc htc
      injection hok with h1
      subst h1
      simp at htc) "q"

/-- Helper: every tool message in the final conversation either was already in
the starting conversation or is the dispatch result of some dispatched tool
call. -/
theorem run_agent_aux_tool_origin (env : AgentEnv) :
    ∀ fuel msgs m c cid, m ∈ (run_agent_aux env fuel msgs).final_messages →
      m = Message.tool c cid →
      m ∈ msgs ∨ ∃ tc ∈ (run_agent_aux env fuel msgs).dispatches, m = dispatch env tc := by
  intro fuel
  induction fuel with
  | zero => intro msgs m c cid hm _; exact Or.inl (by simpa [run_agent_aux] using hm)
  | succ n ih =>
    intro msgs m c cid hm hmeq
    cases hok : env.llm msgs with
    | error e => exact Or.inl (by simpa [run_agent_aux, hok] using hm)
    | ok r =>
      by_cases hr : r.tool_calls = []
      · exact Or.inl (by simpa [run_agent_aux, hok, hr] using hm)
      · have hm' : m ∈ (run_agent_aux env n
            (msgs ++ Message.ai r :: r.tool_calls.map (dispatch env))).final_messages := by
          simpa [run_agent_aux, hok, hr] using hm
        have hds : (run_agent_aux env (n + 1) msgs).dispatches =
            r.tool_calls ++ (run_agent_aux env n
              (msgs ++ Message.ai r :: r.tool_calls.map (dispatch env))).dispatches := by
          simp [run_agent_aux, hok, hr]
        rcases ih _ m c cid hm' hmeq with hmem | ⟨tc, htc, hdisp⟩
        · rcases List.mem_append.mp hmem with h1 | h2
          · exact Or.inl h1
          · rcases List.mem_cons.mp h2 with h3 | h4
            · rw [hmeq] at h3; exact absurd h3 (by simp)
            · rcases List.mem_map.mp h4 with ⟨tc, htc, hdisp⟩
              exact Or.inr ⟨tc, by rw [hds]; exact List.mem_append_left _ htc,
                hdisp.symm⟩
        · exact Or.inr ⟨tc, by rw [hds]; exact List.mem_append_right _ htc, hdisp⟩

/-- Claim C10: every tool message in a run's final conversation has as content
the `str()` rendering of its dispatch result and the id of its tool call; and
when the backend succeeds, the raw tool result is a non-string results object,
yet the appended tool message carries its `str()` text. -/
theorem tool_message_content_via_str (env : AgentEnv) (q : String) :
    (∀ m c cid, m ∈ (run_agent env q).final_messages → m = Message.tool c cid →
        ∃ tc ∈ (run_agent env q).dispatches,
          c = pyStr (tool_result env tc) ∧ cid = tc.id) ∧
      (∀ tc rs, tc.name = "tavily_search" → env.avail = true →
        env.backend.search tc.args = Except.ok rs →
        tool_result env tc = PyVal.list (rs.take 5) ∧
          (tool_result env tc).isStr = false ∧
          dispatch env tc = Message.tool (pyStr (PyVal.list (rs.take 5))) tc.id) := by
  refine ⟨fun m c cid hm hmeq => ?_, fun tc rs hn ha hb => ?_⟩
  · rcases run_agent_aux_tool_origin env max_iterations (init_messages env.avail q)
        m c cid hm hmeq with hin | ⟨tc, htc, hdisp⟩
    · rw [hmeq] at hin
      simp [init_messages] at hin
    · rw [hmeq] at hdisp
      simp only [dispatch, Message.tool.injEq] at hdisp
      exact ⟨tc, htc, hdisp.1, hdisp.2⟩
  · have h1 : tool_result env tc = PyVal.list (rs.take 5) := by
      simp [tool_result, hn, tavily_search, ha, TavilySearchResults_run, hb, Except.map]
    exact ⟨h1, by rw [h1]; rfl, by simp [dispatch, h1]⟩

/-- Witness for C10: seven raw results from the backend become a non-string
results object capped at five, stored as its text rendering. -/
theorem tool_message_content_via_str_witness :
    tool_result ⟨true, okBackend, llmAlwaysTool⟩ ⟨"call_1", "tavily_search", "news"⟩ =
        PyVal.list ((["r1", "r2", "r3", "r4", "r5", "r6", "r7"] : List String).take 5) ∧
      (tool_result ⟨true, okBackend, llmAlwaysTool⟩
          ⟨"call_1", "tavily_search", "news"⟩).isStr = false ∧
      dispatch ⟨true, okBackend, llmAlwaysTool⟩ ⟨"call_1", "tavily_search", "news"⟩ =
        Message.tool
          (pyStr (PyVal.list
            ((["r1", "r2", "r3", "r4", "r5", "r6", "r7"] : List String).take 5)))
          "call_1" :=
  (tool_message_content_via_str ⟨true, okBackend, llmAlwaysTool⟩ "q").2
    ⟨"call_1", "tavily_search", "news"⟩ ["r1", "r2", "r3", "r4", "r5", "r6", "r7"]
    rfl rfl rfl
